import Mathlib

/-!
Shallow embedding of the TripGenie trip-planning application (TypeScript/React)
and proofs about its core operations: itinerary reordering, logistics refresh,
plan archival, activity editing and replacement, map-region drawing, split-pane
resizing, and form submission.

Sources embedded: `src/types.ts` (data model), `src/App.tsx` (plan state
handlers), `src/components/ItineraryList.tsx` (drag-and-drop reorder),
`src/unnamed/part_001` (TripInput.handleSubmit, HomeMap/AreaDrawer,
geminiService.generateTripPlan post-processing, recalculateLogistics).

Numbers that are JavaScript floats are modelled as rationals; JavaScript
`x || y` string-falsiness is modelled explicitly; asynchronous collaborator
calls (the generative-AI service) are modelled by passing the collaborator's
response as an explicit argument.
-/

namespace TripGenie

/-- Embeds `Coordinates` from src/types.ts: a {lat, lng} point. Also used for
Leaflet's LatLng values in the drawing component. -/
structure Coordinates where
  lat : ℚ
  lng : ℚ
deriving DecidableEq

/-- Embeds `TripBounds` from src/types.ts: a rectangular region in degrees. -/
structure TripBounds where
  north : ℚ
  south : ℚ
  east : ℚ
  west : ℚ
deriving DecidableEq

/-- Embeds `GroundingLink` from src/types.ts. -/
structure GroundingLink where
  title : String
  uri : String
deriving DecidableEq

/-- Embeds the activity `type` union from src/types.ts:
`'food' | 'landmark' | 'activity' | 'relax' | 'stay'`. -/
inductive ActivityType where
  | food
  | landmark
  | activity
  | relax
  | stay
deriving DecidableEq

/-- Embeds `Activity` from src/types.ts. Optional TS fields become `Option`. -/
structure Activity where
  name : String
  description : String
  location : Coordinates
  time : String
  type : ActivityType
  price : Option String := none
  items : Option (List String) := none
  groundingLinks : Option (List GroundingLink) := none
  travelDistance : Option String := none
  travelTime : Option String := none
deriving DecidableEq

/-- Embeds `DayPlan` from src/types.ts. -/
structure DayPlan where
  dayNumber : Nat
  theme : String
  activities : List Activity
deriving DecidableEq

/-- Embeds the currency union `'USD' | 'INR'` from src/types.ts. -/
inductive Currency where
  | USD
  | INR
deriving DecidableEq

/-- Embeds `TripPlan` from src/types.ts. -/
structure TripPlan where
  id : String
  destination : String
  summary : String
  itinerary : List DayPlan
  centerCoordinates : Coordinates
  currency : Currency
  totalEstimatedCost : ℚ
  weatherAdvisory : String
  createdAt : Option Nat := none
  stayLocation : Option Activity := none
  postcardUrl : Option String := none
deriving DecidableEq

/-- Embeds `TripRequest` from src/types.ts. -/
structure TripRequest where
  destination : String
  days : Nat
  interests : String
  selectedAreas : Option (List TripBounds) := none
  currency : Currency
  startTime : Option String := none
  endTime : Option String := none
  customInstructions : Option String := none
  budgetCap : Option Nat := none
  travelMonth : Option String := none
  includeStay : Option Bool := none
  preSelectedStay : Option Activity := none
deriving DecidableEq

/-! ### List helpers mirroring the JavaScript array operations used by the app -/

/-- In-place update of the element at an index, mirroring the JavaScript
assignment `arr[n] = f (arr[n])`; out-of-range indices leave the list
unchanged (the app only produces in-range indices). -/
def listModify (f : α → α) : Nat → List α → List α
  | _, [] => []
  | 0, x :: xs => f x :: xs
  | n + 1, x :: xs => x :: listModify f n xs

/-- Mirrors `arr.splice(n, 0, a)`: insert `a` at position `n`, clamping to the
end of the list when `n` exceeds the length (JavaScript splice semantics). -/
def insertAt (a : α) : Nat → List α → List α
  | _, [] => [a]
  | 0, xs => a :: xs
  | n + 1, x :: xs => x :: insertAt a n xs

theorem listModify_length (f : α → α) (n : Nat) (l : List α) :
    (listModify f n l).length = l.length := by
  induction l generalizing n with
  | nil => cases n <;> rfl
  | cons x xs ih =>
    cases n with
    | zero => rfl
    | succ m => simp [listModify, ih]

theorem listModify_get?_self (f : α → α) (n : Nat) (l : List α) :
    (listModify f n l).get? n = (l.get? n).map f := by
  induction l generalizing n with
  | nil => cases n <;> rfl
  | cons x xs ih =>
    cases n with
    | zero => rfl
    | succ m => simpa [listModify] using ih m

theorem listModify_get?_ne (f : α → α) {m n : Nat} (h : m ≠ n) (l : List α) :
    (listModify f n l).get? m = l.get? m := by
  induction l generalizing m n with
  | nil => cases n <;> rfl
  | cons x xs ih =>
    cases n with
    | zero =>
      cases m with
      | zero => exact absurd rfl h
      | succ k => rfl
    | succ n' =>
      cases m with
      | zero => rfl
      | succ m' => simpa [listModify] using ih (fun hc => h (by simpa using hc))

theorem mem_insertAt {b a : α} : ∀ {n : Nat} {l : List α},
    b ∈ insertAt a n l → b = a ∨ b ∈ l
  | _, [], h => by
    simp [insertAt] at h
    exact Or.inl h
  | 0, x :: xs, h => by
    simpa [insertAt] using h
  | n + 1, x :: xs, h => by
    simp only [insertAt, List.mem_cons] at h
    rcases h with h | h
    · exact Or.inr (List.mem_cons.mpr (Or.inl h))
    · rcases mem_insertAt h with h' | h'
      · exact Or.inl h'
      · exact Or.inr (List.mem_cons.mpr (Or.inr h'))

theorem mem_of_mem_eraseIdx {a : α} : ∀ {l : List α} {n : Nat},
    a ∈ l.eraseIdx n → a ∈ l
  | [], _, h => by simp [List.eraseIdx] at h
  | x :: xs, 0, h => List.mem_cons.mpr (Or.inr h)
  | x :: xs, n + 1, h => by
    simp only [List.eraseIdx, List.mem_cons] at h
    rcases h with h | h
    · exact List.mem_cons.mpr (Or.inl h)
    · exact List.mem_cons.mpr (Or.inr (mem_of_mem_eraseIdx h))

/-! ### src/components/ItineraryList.tsx — drag-and-drop reorder -/

/-- Embeds `onDrop` (ItineraryList.tsx lines 148-161), the list computation
only: with a dragged index and a drop-target index, it removes the element at
the dragged index (`splice(draggedIndex, 1)[0]`) and inserts it at the target
index (`splice(targetIndex, 0, item)`). Returns `none` when no drag is in
progress or source equals target (the handler early-returns without calling
`onReorderActivities`), and when the dragged index is out of range (the drag
handlers only ever produce indices of rendered activity cards). -/
def onDrop (draggedIndex : Option Nat) (targetIndex : Nat)
    (acts : List Activity) : Option (List Activity) :=
  match draggedIndex with
  | none => none
  | some src =>
    if src = targetIndex then none
    else (acts.get? src).map fun item => insertAt item targetIndex (acts.eraseIdx src)

/-! ### src/App.tsx — plan state handlers -/

/-- Embeds the synchronous part of `handleReorderActivities` (App.tsx lines
105-122): if no plan is loaded it returns the state unchanged; otherwise it
sets the day's activities to `newActivities` and this update is visible
immediately, before the asynchronous `recalculateLogistics` call resolves. -/
def handleReorderActivities (plan : Option TripPlan) (dayIndex : Nat)
    (newActivities : List Activity) : Option TripPlan :=
  match plan with
  | none => none
  | some p =>
    some { p with
      itinerary := listModify (fun d => { d with activities := newActivities })
        dayIndex p.itinerary }

/-- Embeds `handleEditActivity` (App.tsx lines 124-133): `activityIndex = -1`
targets the plan's `stayLocation`; otherwise the activity at that index of the
given day is overwritten. Indices are the JavaScript numbers, so the sentinel
comparison is on `Int`. -/
def handleEditActivity (plan : Option TripPlan) (dayIndex : Nat)
    (activityIndex : Int) (updatedActivity : Activity) : Option TripPlan :=
  match plan with
  | none => none
  | some p =>
    if activityIndex = -1 then
      some { p with stayLocation := some updatedActivity }
    else
      some { p with
        itinerary := listModify
          (fun d => { d with
            activities := listModify (fun _ => updatedActivity)
              activityIndex.toNat d.activities })
          dayIndex p.itinerary }

/-- Embeds the `excludedPlaces` computation of `handleReplaceActivity`
(App.tsx line 137): the name of every activity of every day. -/
def excludedPlaces (p : TripPlan) : List String :=
  p.itinerary.flatMap fun day => day.activities.map fun act => act.name

/-- Result of `handleReplaceActivity`: the next plan state together with the
value returned to (or the error rethrown at) the caller. -/
structure ReplaceOutcome where
  plan : TripPlan
  result : Except String Activity

/-- Embeds `handleReplaceActivity` (App.tsx lines 135-149). The awaited
collaborator call `generateReplacementActivity(currentActivity, destination,
day.theme, currency, excludedPlaces)` is modelled by its response `resp`:
on success the returned activity overwrites the slot and is returned; on
failure the error is rethrown and the plan is left untouched. -/
def handleReplaceActivity (p : TripPlan) (dayIndex : Nat) (activityIndex : Nat)
    (resp : Except String Activity) : ReplaceOutcome :=
  match resp with
  | .error e => ⟨p, .error e⟩
  | .ok newActivity =>
    ⟨{ p with
        itinerary := listModify
          (fun d => { d with
            activities := listModify (fun _ => newActivity)
              activityIndex d.activities })
          dayIndex p.itinerary },
      .ok newActivity⟩

/-- Embeds `handleSavePlan` (App.tsx lines 151-156): a copy of the plan
stamped with the current time is placed in front of the archive with every
previously saved plan of the same id filtered out. -/
def handleSavePlan (savedPlans : List TripPlan) (planToSave : TripPlan)
    (now : Nat) : List TripPlan :=
  { planToSave with createdAt := some now } ::
    savedPlans.filter fun q => decide (q.id ≠ planToSave.id)

/-- Embeds `resize` (App.tsx lines 63-72): while resizing, the requested
width is the pointer's x coordinate minus the container's left edge, and it is
applied only when strictly between 320 and three quarters of the container
width; otherwise the stored width is kept. The early return when not resizing
is the `!isResizing` guard. -/
def resize (isResizing : Bool) (clientX containerLeft containerWidth : ℚ)
    (itineraryWidth : ℚ) : ℚ :=
  if isResizing = false then itineraryWidth
  else
    let newWidth := clientX - containerLeft
    if 320 < newWidth ∧ newWidth < containerWidth * (3 / 4) then newWidth
    else itineraryWidth

/-! ### src/unnamed/part_001 — TripInput form submission -/

/-- Embeds `handleSubmit` of the TripInput component (part_001 lines 71-88):
when the trimmed destination text is empty and no region is selected the
handler returns without calling `onPlanTrip` (modelled as `none`); otherwise
the planning request is built exactly as in the source and passed on. -/
def handleSubmit (destination : String) (days : Nat) (interests : String)
    (currency : Currency) (selectedAreas : List TripBounds)
    (startTime endTime customInstructions : String) (budgetCap : Option Nat)
    (travelMonth : String) (includeStay : Bool)
    (preSelectedStay : Option Activity) : Option TripRequest :=
  if destination.trim = "" ∧ selectedAreas = [] then none
  else
    some
      { destination := destination
        days := days
        interests := interests
        currency := currency
        selectedAreas := if selectedAreas.length > 0 then some selectedAreas else none
        startTime := some startTime
        endTime := some endTime
        customInstructions := some customInstructions
        budgetCap := budgetCap
        travelMonth := some travelMonth
        includeStay := some includeStay
        preSelectedStay := preSelectedStay }

/-! ### src/unnamed/part_001 — geminiService: recalculateLogistics -/

/-- One entry of the parsed collaborator response inside
`recalculateLogistics`. The response is an unchecked `JSON.parse(...) as
Activity[]`, and only the three logistics fields of each entry are ever read,
so each may be missing (`none`) independently. -/
structure LogisticsEntry where
  time : Option String := none
  travelDistance : Option String := none
  travelTime : Option String := none
deriving DecidableEq

/-- JavaScript `v || fallback` for an optionally-present string field: both a
missing field (`undefined`) and the empty string are falsy. -/
def jsOrElse (v : Option String) (fallback : String) : String :=
  match v with
  | none => fallback
  | some s => if s = "" then fallback else s

/-- Body of the arrow function in `recalculateLogistics` (part_001 lines
682-687): spread the original activity and overwrite the three logistics
fields from position `i` of the response, with `updatedLogistics[i]?.time ||
original.time` and the empty string as the fallback for the travel fields. -/
def applyLogistics (upd : List LogisticsEntry) (i : Nat) (original : Activity) :
    Activity :=
  { original with
    time := jsOrElse ((upd.get? i).bind LogisticsEntry.time) original.time
    travelDistance := some (jsOrElse ((upd.get? i).bind LogisticsEntry.travelDistance) "")
    travelTime := some (jsOrElse ((upd.get? i).bind LogisticsEntry.travelTime) "") }

/-- Index-carrying recursion embedding `activities.map((original, i) => ...)`
of `recalculateLogistics` (part_001 lines 682-687). -/
def recalculateLogisticsFrom (upd : List LogisticsEntry) :
    Nat → List Activity → List Activity
  | _, [] => []
  | i, original :: rest =>
    applyLogistics upd i original :: recalculateLogisticsFrom upd (i + 1) rest

/-- Embeds the pure core of `recalculateLogistics` (part_001 lines 652-688):
the collaborator's parsed response `upd` is merged into the input activity
list positionally. -/
def recalculateLogistics (activities : List Activity)
    (upd : List LogisticsEntry) : List Activity :=
  recalculateLogisticsFrom upd 0 activities

theorem recalculateLogisticsFrom_length (upd : List LogisticsEntry)
    (k : Nat) (l : List Activity) :
    (recalculateLogisticsFrom upd k l).length = l.length := by
  induction l generalizing k with
  | nil => rfl
  | cons x xs ih => simp [recalculateLogisticsFrom, ih]

theorem recalculateLogisticsFrom_get? (upd : List LogisticsEntry)
    (k : Nat) (l : List Activity) (i : Nat) :
    (recalculateLogisticsFrom upd k l).get? i
      = (l.get? i).map (applyLogistics upd (k + i)) := by
  induction l generalizing k i with
  | nil => cases i <;> rfl
  | cons x xs ih =>
    cases i with
    | zero => rfl
    | succ j =>
      have harg : k + 1 + j = k + (j + 1) := by omega
      have := ih (k + 1) j
      rw [harg] at this
      simpa [recalculateLogisticsFrom] using this

/-! ### src/unnamed/part_001 — geminiService: generateTripPlan post-processing -/

/-- Embeds the post-processing of the parsed model response in
`generateTripPlan` (part_001 lines 596-614): the fresh id from
`crypto.randomUUID()` and the grounding chunks extracted from the response are
passed as arguments; the request currency replaces whatever the raw output
contained, a pre-selected stay overrides the produced `stayLocation`, and
every activity of every day receives the first two global grounding links. -/
def postProcessPlan (request : TripRequest) (raw : TripPlan) (freshId : String)
    (globalLinks : List GroundingLink) : TripPlan :=
  let d1 := { raw with id := freshId, currency := request.currency }
  let d2 :=
    match request.preSelectedStay with
    | some s => { d1 with stayLocation := some s }
    | none => d1
  { d2 with
    itinerary := d2.itinerary.map fun day =>
      { day with
        activities := day.activities.map fun act =>
          { act with groundingLinks := some (globalLinks.take 2) } } }

/-! ### src/unnamed/part_001 — HomeMap / AreaDrawer region drawing -/

/-- Modelled from the spec: Leaflet's `latLngBounds(a, b)` (library code, not
under src/) builds the smallest box containing both corner points, so per §3
of the spec its north/east edges are the larger latitude/longitude and its
south/west edges the smaller ones; `getNorth`/`getSouth`/`getEast`/`getWest`
read those edges back. -/
def latLngBounds (a b : Coordinates) : TripBounds :=
  { north := max a.lat b.lat
    south := min a.lat b.lat
    east := max a.lng b.lng
    west := min a.lng b.lng }

/-- Modelled from the spec: Leaflet's `LatLng.distanceTo` (library code, not
under src/) is the spec's "great-circle/planar distance" in metres. The full
haversine formula is transcendental; this executable model is its exact
restriction to two points on the equator — Earth radius 6371000 m times the
longitude difference in radians — with pi replaced by the lower bound
3.14159. Every theorem evaluates it only at equator points, where it
under-approximates the library value, so any threshold it exceeds the
library value exceeds too. -/
def distanceTo (p q : Coordinates) : ℚ :=
  6371000 * |q.lng - p.lng| * (314159 / 100000) / 180

/-- Drawing-gesture state of the AreaDrawer component (part_001 lines
237-238): the anchor point set on mousedown and the point tracked on
mousemove. -/
structure DrawState where
  startPoint : Option Coordinates
  currentPoint : Option Coordinates
deriving DecidableEq

/-- Embeds the `mouseup` handler of AreaDrawer together with HomeMap's
`handleDrawComplete` (part_001 lines 260-274 and 333-335), parameterised by
the distance function: when an anchored drawing gesture ends, the box spanned
by anchor and release point is appended to the selection list exactly when
their distance exceeds 100, and the gesture state is reset; otherwise nothing
changes. Returns the next gesture state and the next selection list. -/
def mouseup (dist : Coordinates → Coordinates → ℚ) (isDrawingMode : Bool)
    (s : DrawState) (selectedAreas : List TripBounds) :
    DrawState × List TripBounds :=
  match s.startPoint, s.currentPoint with
  | some sp, some cp =>
    if isDrawingMode then
      (⟨none, none⟩,
        if dist sp cp > 100 then selectedAreas ++ [latLngBounds sp cp]
        else selectedAreas)
    else (s, selectedAreas)
  | _, _ => (s, selectedAreas)

/-! ### Concrete sample data used by the witnesses -/

/-- Sample activity used by witnesses. -/
def act1 : Activity :=
  { name := "Louvre", description := "museum", location := ⟨48, 2⟩
    time := "10:00 AM", type := .landmark }

/-- Sample activity used by witnesses. -/
def act2 : Activity :=
  { name := "Cafe Flore", description := "coffee", location := ⟨49, 3⟩
    time := "12:00 PM", type := .food }

/-- Sample activity used by witnesses. -/
def act3 : Activity :=
  { name := "Seine Walk", description := "stroll", location := ⟨50, 4⟩
    time := "3:00 PM", type := .relax }

/-- Sample stay activity used by witnesses. -/
def stayAct : Activity :=
  { name := "Hotel Lutetia", description := "stay", location := ⟨47, 1⟩
    time := "Check-in", type := .stay }

/-- Sample day used by witnesses. -/
def dayA : DayPlan := { dayNumber := 1, theme := "Art", activities := [act1, act2, act3] }

/-- Sample day used by witnesses. -/
def dayB : DayPlan := { dayNumber := 2, theme := "Food", activities := [act2] }

/-- Sample plan used by witnesses. -/
def planA : TripPlan :=
  { id := "p1", destination := "Paris", summary := "two days in Paris"
    itinerary := [dayA, dayB], centerCoordinates := ⟨48, 2⟩
    currency := .USD, totalEstimatedCost := 100, weatherAdvisory := "mild"
    stayLocation := some stayAct }

/-! ### Claim theorems -/

/-- C1: for every loaded plan, valid day index, and drag-and-drop reordering
(remove the activity at the source index, insert it at the target index),
`handleReorderActivities` applies exactly that permutation synchronously:
reading the day's activities immediately afterwards, before any logistics
refresh completes, yields exactly the requested order, and every activity in
the new list is one of the original activities, identified by name and
location. -/
theorem c1_reorder_applied_synchronously
    (p : TripPlan) (dayIndex src tgt : Nat) (day : DayPlan)
    (hday : p.itinerary.get? dayIndex = some day)
    (hsrc : src < day.activities.length) (hne : src ≠ tgt) :
    ∃ item newActs p' day',
      day.activities.get? src = some item ∧
      onDrop (some src) tgt day.activities = some newActs ∧
      newActs = insertAt item tgt (day.activities.eraseIdx src) ∧
      handleReorderActivities (some p) dayIndex newActs = some p' ∧
      p'.itinerary.get? dayIndex = some day' ∧
      day'.activities = newActs ∧
      ∀ a ∈ newActs, ∃ b ∈ day.activities, b.name = a.name ∧ b.location = a.location := by
  have hitem : day.activities.get? src = some (day.activities.get ⟨src, hsrc⟩) :=
    List.get?_eq_get hsrc
  set item := day.activities.get ⟨src, hsrc⟩ with hitemdef
  set newActs := insertAt item tgt (day.activities.eraseIdx src) with hnewdef
  refine ⟨item, newActs,
    { p with itinerary :=
        listModify (fun d => { d with activities := newActs }) dayIndex p.itinerary },
    ({ day with activities := newActs } : DayPlan),
    hitem, ?_, rfl, rfl, ?_, rfl, ?_⟩
  · simp only [onDrop, if_neg hne, Option.map_eq_some']
    exact ⟨item, hitem, rfl⟩
  · show (listModify _ dayIndex p.itinerary).get? dayIndex = _
    rw [listModify_get?_self, hday]
    rfl
  · intro a ha
    rcases mem_insertAt ha with h | h
    · exact ⟨a, h ▸ day.activities.get_mem src hsrc, rfl, rfl⟩
    · exact ⟨a, mem_of_mem_eraseIdx h, rfl, rfl⟩

/-- Witness for C1 at a concrete plan: dragging the activity at index 2 of
day 0 onto index 0 yields the rotated list immediately. -/
theorem c1_reorder_witness :
    planA.itinerary.get? 0 = some dayA ∧ 2 < dayA.activities.length ∧ (2 : Nat) ≠ 0 ∧
    ∃ item newActs p' day',
      dayA.activities.get? 2 = some item ∧
      onDrop (some 2) 0 dayA.activities = some newActs ∧
      newActs = insertAt item 0 (dayA.activities.eraseIdx 2) ∧
      handleReorderActivities (some planA) 0 newActs = some p' ∧
      p'.itinerary.get? 0 = some day' ∧
      day'.activities = newActs ∧
      ∀ a ∈ newActs, ∃ b ∈ dayA.activities, b.name = a.name ∧ b.location = a.location :=
  ⟨rfl, by decide, by decide,
    c1_reorder_applied_synchronously planA 0 2 0 dayA rfl (by decide) (by decide)⟩

/-- Sample collaborator response used by witnesses. -/
def updSample : List LogisticsEntry :=
  [{ time := some "9:30 AM", travelDistance := some "2 km", travelTime := some "10 min" }]

/-- C2: the logistics refresh returns a list with the same length and order
as its input, and for each position only the logistics-derived fields (time,
travelDistance, travelTime) may differ from the input; name, description,
location, type, price, items, and groundingLinks are unchanged, whatever the
collaborator response contains. -/
theorem c2_recalculateLogistics_frame (acts : List Activity)
    (upd : List LogisticsEntry) :
    (recalculateLogistics acts upd).length = acts.length ∧
    ∀ i, i < acts.length →
      ∃ o r, acts.get? i = some o ∧
        (recalculateLogistics acts upd).get? i = some r ∧
        r.name = o.name ∧ r.description = o.description ∧ r.location = o.location ∧
        r.type = o.type ∧ r.price = o.price ∧ r.items = o.items ∧
        r.groundingLinks = o.groundingLinks ∧
        r.time = jsOrElse ((upd.get? i).bind LogisticsEntry.time) o.time ∧
        r.travelDistance = some (jsOrElse ((upd.get? i).bind LogisticsEntry.travelDistance) "") ∧
        r.travelTime = some (jsOrElse ((upd.get? i).bind LogisticsEntry.travelTime) "") := by
  refine ⟨recalculateLogisticsFrom_length upd 0 acts, ?_⟩
  intro i hi
  have ho : acts.get? i = some (acts.get ⟨i, hi⟩) := List.get?_eq_get hi
  refine ⟨acts.get ⟨i, hi⟩, applyLogistics upd i (acts.get ⟨i, hi⟩), ho, ?_,
    rfl, rfl, rfl, rfl, rfl, rfl, rfl, rfl, rfl, rfl⟩
  show (recalculateLogisticsFrom upd 0 acts).get? i = _
  rw [recalculateLogisticsFrom_get?, ho]
  simp

/-- Witness for C2 at a concrete input: position 1 with a one-entry response. -/
theorem c2_recalculateLogistics_witness :
    ∃ o r, [act1, act2].get? 1 = some o ∧
      (recalculateLogistics [act1, act2] updSample).get? 1 = some r ∧
      r.name = o.name ∧ r.description = o.description ∧ r.location = o.location ∧
      r.type = o.type ∧ r.price = o.price ∧ r.items = o.items ∧
      r.groundingLinks = o.groundingLinks ∧
      r.time = jsOrElse ((updSample.get? 1).bind LogisticsEntry.time) o.time ∧
      r.travelDistance = some (jsOrElse ((updSample.get? 1).bind LogisticsEntry.travelDistance) "") ∧
      r.travelTime = some (jsOrElse ((updSample.get? 1).bind LogisticsEntry.travelTime) "") :=
  (c2_recalculateLogistics_frame [act1, act2] updSample).2 1 (by decide)

/-- C10: the logistics merge is total in the length of the collaborator's
response: the output always has exactly the input's length, and at a position
the response does not cover (or covers with an entry lacking the fields) the
original time is kept and the travel fields become the empty string. -/
theorem c10_recalculateLogistics_total (acts : List Activity)
    (upd : List LogisticsEntry) :
    (recalculateLogistics acts upd).length = acts.length ∧
    (∀ i, i < acts.length → upd.length ≤ i →
      ∃ o r, acts.get? i = some o ∧
        (recalculateLogistics acts upd).get? i = some r ∧
        r.time = o.time ∧ r.travelDistance = some "" ∧ r.travelTime = some "") ∧
    (∀ i e, i < acts.length → upd.get? i = some e →
      e.time = none → e.travelDistance = none → e.travelTime = none →
      ∃ o r, acts.get? i = some o ∧
        (recalculateLogistics acts upd).get? i = some r ∧
        r.time = o.time ∧ r.travelDistance = some "" ∧ r.travelTime = some "") := by
  refine ⟨recalculateLogisticsFrom_length upd 0 acts, ?_, ?_⟩
  · intro i hi hlen
    have ho : acts.get? i = some (acts.get ⟨i, hi⟩) := List.get?_eq_get hi
    have hnone : upd.get? i = none := List.get?_eq_none.mpr hlen
    have hnone' : upd[i]? = none := by simpa using hnone
    refine ⟨acts.get ⟨i, hi⟩, applyLogistics upd i (acts.get ⟨i, hi⟩), ho, ?_, ?_, ?_, ?_⟩
    · show (recalculateLogisticsFrom upd 0 acts).get? i = _
      rw [recalculateLogisticsFrom_get?, ho]
      simp
    · simp [applyLogistics, hnone', jsOrElse]
    · simp [applyLogistics, hnone', jsOrElse]
    · simp [applyLogistics, hnone', jsOrElse]
  · intro i e hi he ht hd htt
    have ho : acts.get? i = some (acts.get ⟨i, hi⟩) := List.get?_eq_get hi
    have he' : upd[i]? = some e := by simpa using he
    refine ⟨acts.get ⟨i, hi⟩, applyLogistics upd i (acts.get ⟨i, hi⟩), ho, ?_, ?_, ?_, ?_⟩
    · show (recalculateLogisticsFrom upd 0 acts).get? i = _
      rw [recalculateLogisticsFrom_get?, ho]
      simp
    · simp [applyLogistics, he', ht, jsOrElse]
    · simp [applyLogistics, he', hd, jsOrElse]
    · simp [applyLogistics, he', htt, jsOrElse]

/-- Witness for C10 at a concrete input: the one-entry response does not
cover position 1 of a two-activity list. -/
theorem c10_recalculateLogistics_witness :
    ∃ o r, [act1, act2].get? 1 = some o ∧
      (recalculateLogistics [act1, act2] updSample).get? 1 = some r ∧
      r.time = o.time ∧ r.travelDistance = some "" ∧ r.travelTime = some "" :=
  (c10_recalculateLogistics_total [act1, act2] updSample).2.1 1 (by decide) (by decide)

theorem length_filter_lt_of_mem {α} {p : α → Bool} {l : List α} {x : α}
    (hx : x ∈ l) (hpx : p x = false) :
    (l.filter p).length < l.length := by
  induction l with
  | nil => cases hx
  | cons a t ih =>
    rcases List.mem_cons.mp hx with h | h
    · subst h
      rw [List.filter_cons, hpx]
      exact Nat.lt_succ_of_le (List.length_filter_le p t)
    · rw [List.filter_cons]
      cases hpa : p a
      · exact Nat.lt_succ_of_lt (ih h)
      · simpa using Nat.succ_lt_succ (ih h)

/-- C3: `handleSavePlan` places a save-timestamped copy of the plan at the
front of the archive; every pre-existing entry with the same id is removed,
so the archive length does not grow in that case and grows by exactly one
when no entry with that id exists; all other entries keep their relative
order. -/
theorem c3_savePlan_upsert (saved : List TripPlan) (p : TripPlan) (now : Nat) :
    (handleSavePlan saved p now).head? = some { p with createdAt := some now } ∧
    (handleSavePlan saved p now).tail
      = saved.filter (fun q => decide (q.id ≠ p.id)) ∧
    (∀ q ∈ (handleSavePlan saved p now).tail, q.id ≠ p.id) ∧
    List.Sublist (handleSavePlan saved p now).tail saved ∧
    ((∃ q ∈ saved, q.id = p.id) →
      (handleSavePlan saved p now).length ≤ saved.length) ∧
    ((¬ ∃ q ∈ saved, q.id = p.id) →
      (handleSavePlan saved p now).length = saved.length + 1) := by
  refine ⟨rfl, rfl, ?_, ?_, ?_, ?_⟩
  · intro q hq
    have hq' : q ∈ saved.filter (fun r => decide (r.id ≠ p.id)) := hq
    have := List.of_mem_filter hq'
    simpa using this
  · exact List.filter_sublist saved
  · rintro ⟨q, hq, hid⟩
    have : (saved.filter (fun q => decide (q.id ≠ p.id))).length < saved.length :=
      length_filter_lt_of_mem hq (by simp [hid])
    show (saved.filter (fun q => decide (q.id ≠ p.id))).length + 1 ≤ saved.length
    omega
  · intro hno
    have hall : ∀ q ∈ saved, (fun q => decide (q.id ≠ p.id)) q = true := by
      intro q hq
      by_contra hc
      exact hno ⟨q, hq, by simpa using hc⟩
    show (saved.filter (fun q => decide (q.id ≠ p.id))).length + 1 = saved.length + 1
    rw [List.filter_eq_self.mpr hall]

/-- Witness for C3 at a concrete archive: planA is already saved once, so
re-saving keeps the length; the timestamped copy sits at the front. -/
theorem c3_savePlan_witness :
    (handleSavePlan [planA] planA 42).head? = some { planA with createdAt := some 42 } ∧
    (∃ q ∈ [planA], q.id = planA.id) ∧
    (handleSavePlan [planA] planA 42).length ≤ [planA].length :=
  ⟨(c3_savePlan_upsert [planA] planA 42).1, ⟨planA, by simp⟩,
    (c3_savePlan_upsert [planA] planA 42).2.2.2.2.1 ⟨planA, by simp⟩⟩

/-- C4: `handleEditActivity` with the sentinel index -1 replaces the plan's
stayLocation and leaves every day's activities array unchanged; with an
activity index that is at least 0 it replaces only the activity at that index
of the given day and leaves the stayLocation, all other activities of that
day, and every other day unchanged. -/
theorem c4_editActivity_frame (p : TripPlan) (patch : Activity) :
    (∀ dayIndex : Nat,
      ∃ p', handleEditActivity (some p) dayIndex (-1) patch = some p' ∧
        p'.stayLocation = some patch ∧ p'.itinerary = p.itinerary) ∧
    (∀ (dayIndex : Nat) (ai : Int) (day : DayPlan), 0 ≤ ai →
      p.itinerary.get? dayIndex = some day →
      ai.toNat < day.activities.length →
      ∃ p', handleEditActivity (some p) dayIndex ai patch = some p' ∧
        p'.stayLocation = p.stayLocation ∧
        p'.id = p.id ∧ p'.destination = p.destination ∧ p'.summary = p.summary ∧
        (∀ d, d ≠ dayIndex → p'.itinerary.get? d = p.itinerary.get? d) ∧
        ∃ day', p'.itinerary.get? dayIndex = some day' ∧
          day'.dayNumber = day.dayNumber ∧ day'.theme = day.theme ∧
          day'.activities.get? ai.toNat = some patch ∧
          (∀ j, j ≠ ai.toNat → day'.activities.get? j = day.activities.get? j)) := by
  constructor
  · intro dayIndex
    exact ⟨{ p with stayLocation := some patch }, rfl, rfl, rfl⟩
  · intro dayIndex ai day hai hday hlen
    have hne : ai ≠ -1 := by omega
    refine ⟨{ p with
        itinerary := listModify
          (fun d => { d with
            activities := listModify (fun _ => patch) ai.toNat d.activities })
          dayIndex p.itinerary },
      ?_, rfl, rfl, rfl, rfl, ?_, ?_⟩
    · simp [handleEditActivity, hne]
    · intro d hd
      exact listModify_get?_ne _ hd p.itinerary
    · refine ⟨{ day with
          activities := listModify (fun _ => patch) ai.toNat day.activities },
        ?_, rfl, rfl, ?_, ?_⟩
      · show (listModify _ dayIndex p.itinerary).get? dayIndex = _
        rw [listModify_get?_self, hday]
        rfl
      · rw [listModify_get?_self]
        rw [List.get?_eq_get hlen]
        rfl
      · intro j hj
        exact listModify_get?_ne _ hj day.activities

/-- Witness for C4 at a concrete plan: editing the stayLocation via the -1
sentinel, and editing activity 1 of day 0. -/
theorem c4_editActivity_witness :
    (∃ p', handleEditActivity (some planA) 0 (-1) act3 = some p' ∧
      p'.stayLocation = some act3 ∧ p'.itinerary = planA.itinerary) ∧
    (∃ p', handleEditActivity (some planA) 0 1 act3 = some p' ∧
      p'.stayLocation = planA.stayLocation ∧
      p'.id = planA.id ∧ p'.destination = planA.destination ∧ p'.summary = planA.summary ∧
      (∀ d, d ≠ 0 → p'.itinerary.get? d = planA.itinerary.get? d) ∧
      ∃ day', p'.itinerary.get? 0 = some day' ∧
        day'.dayNumber = dayA.dayNumber ∧ day'.theme = dayA.theme ∧
        day'.activities.get? (1 : Int).toNat = some act3 ∧
        (∀ j, j ≠ (1 : Int).toNat → day'.activities.get? j = dayA.activities.get? j)) :=
  ⟨(c4_editActivity_frame planA act3).1 0,
    (c4_editActivity_frame planA act3).2 0 1 dayA (by decide) rfl (by decide)⟩

/-- C6: `handleReplaceActivity` builds an excluded-names list containing the
name of every activity of every day; on collaborator success the returned
activity replaces the one at that slot in place and nothing else in the plan
changes; on collaborator failure the error is propagated to the caller and
the plan is unchanged. -/
theorem c6_replaceActivity (p : TripPlan) (dayIndex activityIndex : Nat) :
    (∀ day ∈ p.itinerary, ∀ act ∈ day.activities, act.name ∈ excludedPlaces p) ∧
    (∀ e : String,
      (handleReplaceActivity p dayIndex activityIndex (.error e)).plan = p ∧
      (handleReplaceActivity p dayIndex activityIndex (.error e)).result = .error e) ∧
    (∀ (newAct : Activity) (day : DayPlan),
      p.itinerary.get? dayIndex = some day →
      activityIndex < day.activities.length →
      (handleReplaceActivity p dayIndex activityIndex (.ok newAct)).result = .ok newAct ∧
      ∃ p', (handleReplaceActivity p dayIndex activityIndex (.ok newAct)).plan = p' ∧
        p'.id = p.id ∧ p'.destination = p.destination ∧ p'.summary = p.summary ∧
        p'.centerCoordinates = p.centerCoordinates ∧ p'.currency = p.currency ∧
        p'.totalEstimatedCost = p.totalEstimatedCost ∧
        p'.weatherAdvisory = p.weatherAdvisory ∧ p'.createdAt = p.createdAt ∧
        p'.stayLocation = p.stayLocation ∧ p'.postcardUrl = p.postcardUrl ∧
        (∀ d, d ≠ dayIndex → p'.itinerary.get? d = p.itinerary.get? d) ∧
        ∃ day', p'.itinerary.get? dayIndex = some day' ∧
          day'.dayNumber = day.dayNumber ∧ day'.theme = day.theme ∧
          day'.activities.get? activityIndex = some newAct ∧
          (∀ j, j ≠ activityIndex → day'.activities.get? j = day.activities.get? j)) := by
  refine ⟨?_, fun e => ⟨rfl, rfl⟩, ?_⟩
  · intro day hday act hact
    simp only [excludedPlaces, List.mem_flatMap]
    exact ⟨day, hday, List.mem_map.mpr ⟨act, hact, rfl⟩⟩
  · intro newAct day hday hlen
    refine ⟨rfl, _, rfl, rfl, rfl, rfl, rfl, rfl, rfl, rfl, rfl, rfl, rfl, ?_, ?_⟩
    · intro d hd
      exact listModify_get?_ne _ hd p.itinerary
    · refine ⟨{ day with
          activities := listModify (fun _ => newAct) activityIndex day.activities },
        ?_, rfl, rfl, ?_, ?_⟩
      · show (listModify _ dayIndex p.itinerary).get? dayIndex = _
        rw [listModify_get?_self, hday]
        rfl
      · rw [listModify_get?_self, List.get?_eq_get hlen]
        rfl
      · intro j hj
        exact listModify_get?_ne _ hj day.activities

/-- Witness for C6 at a concrete plan: swapping activity 1 of day 0 for act3
on success, and error propagation on failure. -/
theorem c6_replaceActivity_witness :
    (∀ day ∈ planA.itinerary, ∀ act ∈ day.activities, act.name ∈ excludedPlaces planA) ∧
    (handleReplaceActivity planA 0 1 (.error "network down")).plan = planA ∧
    (handleReplaceActivity planA 0 1 (.error "network down")).result = .error "network down" ∧
    (handleReplaceActivity planA 0 1 (.ok act3)).result = .ok act3 :=
  ⟨(c6_replaceActivity planA 0 1).1,
    ((c6_replaceActivity planA 0 1).2.1 "network down").1,
    ((c6_replaceActivity planA 0 1).2.1 "network down").2,
    ((c6_replaceActivity planA 0 1).2.2 act3 dayA rfl (by decide)).1⟩

/-- C7: while resizing, the requested width is the pointer's x coordinate
minus the container's left edge; it is applied exactly when strictly inside
the open band (320, 0.75 times the container width), and for any requested
width outside that band the pane width stays exactly at its last value,
never clamped to a boundary. -/
theorem c7_resize_band (isResizing : Bool) (clientX containerLeft containerWidth w : ℚ)
    (h : isResizing = true) :
    (320 < clientX - containerLeft ∧
        clientX - containerLeft < containerWidth * (3 / 4) →
      resize isResizing clientX containerLeft containerWidth w
        = clientX - containerLeft) ∧
    (¬ (320 < clientX - containerLeft ∧
        clientX - containerLeft < containerWidth * (3 / 4)) →
      resize isResizing clientX containerLeft containerWidth w = w) := by
  subst h
  constructor
  · intro hin
    simp [resize, hin]
  · intro hout
    simp [resize, hout]

/-- Witness for C7 at concrete values: an in-band pointer applies the new
width, and an out-of-band pointer (width 300) leaves the stored width. -/
theorem c7_resize_witness :
    resize true 500 20 1000 400 = 500 - 20 ∧ resize true 320 20 1000 400 = 400 :=
  ⟨(c7_resize_band true 500 20 1000 400 rfl).1 (by norm_num),
    (c7_resize_band true 320 20 1000 400 rfl).2 (by norm_num)⟩

/-- C8: when the destination text trims to empty and the region-selection
list is empty, no planning request is issued; submission proceeds with the
entered data whenever a non-blank destination or at least one selected region
is present. -/
theorem c8_submit_guard (destination : String) (days : Nat) (interests : String)
    (currency : Currency) (selectedAreas : List TripBounds)
    (startTime endTime customInstructions : String) (budgetCap : Option Nat)
    (travelMonth : String) (includeStay : Bool)
    (preSelectedStay : Option Activity) :
    (destination.trim = "" ∧ selectedAreas = [] →
      handleSubmit destination days interests currency selectedAreas
        startTime endTime customInstructions budgetCap travelMonth
        includeStay preSelectedStay = none) ∧
    (destination.trim ≠ "" ∨ selectedAreas ≠ [] →
      ∃ r, handleSubmit destination days interests currency selectedAreas
          startTime endTime customInstructions budgetCap travelMonth
          includeStay preSelectedStay = some r ∧
        r.destination = destination ∧ r.days = days ∧ r.currency = currency ∧
        r.selectedAreas
          = (if selectedAreas.length > 0 then some selectedAreas else none) ∧
        r.preSelectedStay = preSelectedStay) := by
  constructor
  · intro hblank
    simp [handleSubmit, hblank.1, hblank.2]
  · intro hsome
    have hcond : ¬ (destination.trim = "" ∧ selectedAreas = []) := by
      rcases hsome with h | h
      · exact fun hc => h hc.1
      · exact fun hc => h hc.2
    refine ⟨{ destination := destination
              days := days
              interests := interests
              currency := currency
              selectedAreas := if selectedAreas.length > 0 then some selectedAreas else none
              startTime := some startTime
              endTime := some endTime
              customInstructions := some customInstructions
              budgetCap := budgetCap
              travelMonth := some travelMonth
              includeStay := some includeStay
              preSelectedStay := preSelectedStay }, ?_, rfl, rfl, rfl, rfl, rfl⟩
    simp [handleSubmit, hcond]

theorem trim_empty_string : "".trim = "" := by
  have h1 : Substring.takeWhileAux "" 0 Char.isWhitespace 0 = 0 := by
    unfold Substring.takeWhileAux
    simp
  have h2 : Substring.takeRightWhileAux "" 0 Char.isWhitespace 0 = 0 := by
    unfold Substring.takeRightWhileAux
    simp
  show Substring.toString _ = ""
  simp [String.trim, String.toSubstring, Substring.trim, Substring.trimRight,
    Substring.trimLeft, String.endPos, String.utf8ByteSize, h1, h2]
  rfl

/-- Witness for C8 at concrete inputs: an empty destination with no regions
blocks submission, and a single selected region lets it proceed. -/
theorem c8_submit_witness :
    handleSubmit "" 3 "food" .USD [] "09:00" "20:00" "" none "May" false none
      = none ∧
    ∃ r, handleSubmit "" 3 "food" .USD [⟨2, 1, 2, 1⟩] "09:00" "20:00" "" none
        "May" false none = some r ∧
      r.destination = "" ∧ r.days = 3 ∧ r.currency = .USD ∧
      r.selectedAreas
        = (if ([⟨2, 1, 2, 1⟩] : List TripBounds).length > 0
            then some [⟨2, 1, 2, 1⟩] else none) ∧
      r.preSelectedStay = none :=
  ⟨(c8_submit_guard "" 3 "food" .USD [] "09:00" "20:00" "" none "May"
      false none).1 ⟨trim_empty_string, rfl⟩,
    (c8_submit_guard "" 3 "food" .USD [⟨2, 1, 2, 1⟩] "09:00" "20:00" "" none
      "May" false none).2 (Or.inr (by simp))⟩

/-- C9: after `generateTripPlan` post-processing, the returned plan's
currency equals the request's currency regardless of the raw model output,
the plan carries the freshly generated id, and a pre-selected stay in the
request overrides whatever stayLocation the raw output contained. -/
theorem c9_postProcess_overrides (request : TripRequest) (raw : TripPlan)
    (freshId : String) (globalLinks : List GroundingLink) :
    (postProcessPlan request raw freshId globalLinks).currency = request.currency ∧
    (postProcessPlan request raw freshId globalLinks).id = freshId ∧
    (∀ s, request.preSelectedStay = some s →
      (postProcessPlan request raw freshId globalLinks).stayLocation = some s) := by
  refine ⟨?_, ?_, ?_⟩
  · cases h : request.preSelectedStay <;> simp [postProcessPlan, h]
  · cases h : request.preSelectedStay <;> simp [postProcessPlan, h]
  · intro s hs
    simp [postProcessPlan, hs]

/-- Sample raw collaborator plan whose currency and stayLocation disagree
with the request; used by the C9 witness. -/
def rawPlan : TripPlan :=
  { id := "model-id", destination := "Paris", summary := "raw"
    itinerary := [dayA], centerCoordinates := ⟨48, 2⟩
    currency := .INR, totalEstimatedCost := 5, weatherAdvisory := "hot"
    stayLocation := some act1 }

/-- Sample request carrying a pre-selected stay; used by the C9 witness. -/
def reqWithStay : TripRequest :=
  { destination := "Paris", days := 2, interests := "art", currency := .USD
    preSelectedStay := some stayAct }

/-- Witness for C9 at a concrete request and raw output: the USD request
overrides the raw INR currency and the raw stayLocation. -/
theorem c9_postProcess_witness :
    (postProcessPlan reqWithStay rawPlan "fresh-uuid" []).currency
      = reqWithStay.currency ∧
    (postProcessPlan reqWithStay rawPlan "fresh-uuid" []).id = "fresh-uuid" ∧
    (postProcessPlan reqWithStay rawPlan "fresh-uuid" []).stayLocation
      = some stayAct :=
  ⟨(c9_postProcess_overrides reqWithStay rawPlan "fresh-uuid" []).1,
    (c9_postProcess_overrides reqWithStay rawPlan "fresh-uuid" []).2.1,
    (c9_postProcess_overrides reqWithStay rawPlan "fresh-uuid" []).2.2 stayAct rfl⟩

/-- C5 counterexample: a purely horizontal drag along the equator from
(0, 0) to (0, 0.01) covers about 1112 metres — well over the 100 m
threshold — so a box is appended, but that box has north equal to south,
refuting the claim that every appended box satisfies north > south and
east ≠ west. -/
theorem c5_draw_counterexample :
    distanceTo ⟨0, 0⟩ ⟨0, 1/100⟩ > 100 ∧
    (mouseup distanceTo true ⟨some ⟨0, 0⟩, some ⟨0, 1/100⟩⟩ []).2
      = [latLngBounds ⟨0, 0⟩ ⟨0, 1/100⟩] ∧
    ¬ ((latLngBounds ⟨0, 0⟩ ⟨0, 1/100⟩).north > (latLngBounds ⟨0, 0⟩ ⟨0, 1/100⟩).south ∧
      (latLngBounds ⟨0, 0⟩ ⟨0, 1/100⟩).east ≠ (latLngBounds ⟨0, 0⟩ ⟨0, 1/100⟩).west) := by
  have hdist : distanceTo ⟨0, 0⟩ ⟨0, 1/100⟩ > 100 := by
    unfold distanceTo
    rw [show ((1 : ℚ)/100 - 0) = 1/100 by ring]
    rw [abs_of_nonneg (by norm_num : (0 : ℚ) ≤ 1/100)]
    norm_num
  have hred : mouseup distanceTo true ⟨some ⟨0, 0⟩, some ⟨0, 1/100⟩⟩ []
      = (⟨none, none⟩,
        if distanceTo ⟨0, 0⟩ ⟨0, 1/100⟩ > 100
        then [] ++ [latLngBounds ⟨0, 0⟩ ⟨0, 1/100⟩] else []) := rfl
  refine ⟨hdist, ?_, ?_⟩
  · rw [hred]
    show (if _ then _ else _) = _
    rw [if_pos hdist]
    rfl
  · rintro ⟨hlt, -⟩
    have hns : (latLngBounds ⟨0, 0⟩ ⟨0, 1/100⟩).north
        = (latLngBounds ⟨0, 0⟩ ⟨0, 1/100⟩).south := by
      show max (0 : ℚ) 0 = min (0 : ℚ) 0
      simp
    rw [hns] at hlt
    exact lt_irrefl _ hlt


/-- C5 (amended): for every distance function and completed anchored drawing
gesture, if the distance between anchor and release point exceeds 100 then
exactly one BoundingBox — the box spanned by the two points — is appended to
the selection list and the gesture state resets; that box satisfies
north ≥ south and west ≤ east, with north > south exactly when the two
latitudes differ and east ≠ west exactly when the two longitudes differ; if
the distance does not exceed 100 the selection list is unchanged and no
error is raised. -/
theorem c5_draw_threshold (dist : Coordinates → Coordinates → ℚ)
    (sp cp : Coordinates) (sels : List TripBounds) :
    (dist sp cp > 100 →
      (mouseup dist true ⟨some sp, some cp⟩ sels).2 = sels ++ [latLngBounds sp cp] ∧
      (mouseup dist true ⟨some sp, some cp⟩ sels).1 = ⟨none, none⟩ ∧
      (latLngBounds sp cp).south ≤ (latLngBounds sp cp).north ∧
      (latLngBounds sp cp).west ≤ (latLngBounds sp cp).east ∧
      ((latLngBounds sp cp).north > (latLngBounds sp cp).south ↔ sp.lat ≠ cp.lat) ∧
      ((latLngBounds sp cp).east ≠ (latLngBounds sp cp).west ↔ sp.lng ≠ cp.lng)) ∧
    (¬ dist sp cp > 100 →
      (mouseup dist true ⟨some sp, some cp⟩ sels).2 = sels) := by
  have hred : mouseup dist true ⟨some sp, some cp⟩ sels
      = (⟨none, none⟩,
        if dist sp cp > 100 then sels ++ [latLngBounds sp cp] else sels) := rfl
  constructor
  · intro hdist
    refine ⟨?_, ?_, min_le_max, min_le_max, ?_, ?_⟩
    · rw [hred]
      show (if _ then _ else _) = _
      rw [if_pos hdist]
    · rw [hred]
    · show max sp.lat cp.lat > min sp.lat cp.lat ↔ sp.lat ≠ cp.lat
      exact min_lt_max
    · show max sp.lng cp.lng ≠ min sp.lng cp.lng ↔ sp.lng ≠ cp.lng
      constructor
      · intro h
        exact min_lt_max.mp (lt_of_le_of_ne min_le_max (Ne.symm h))
      · intro h
        exact ne_of_gt (min_lt_max.mpr h)
  · intro hdist
    rw [hred]
    show (if _ then _ else _) = _
    rw [if_neg hdist]

theorem equator_degree_exceeds_threshold : distanceTo ⟨0, 0⟩ ⟨0, 1⟩ > 100 := by
  unfold distanceTo
  rw [show ((1 : ℚ) - 0) = 1 by ring, abs_one]
  norm_num

theorem zero_drag_below_threshold : ¬ distanceTo ⟨0, 0⟩ ⟨0, 0⟩ > 100 := by
  unfold distanceTo
  rw [show ((0 : ℚ) - 0) = 0 by ring, abs_zero]
  norm_num

/-- Witness for the amended C5 at concrete gestures: a one-degree equatorial
drag appends exactly its box, and a zero-length drag leaves the selection
list unchanged. -/
theorem c5_draw_witness :
    distanceTo ⟨0, 0⟩ ⟨0, 1⟩ > 100 ∧
    (mouseup distanceTo true ⟨some ⟨0, 0⟩, some ⟨0, 1⟩⟩ []).2
      = [] ++ [latLngBounds ⟨0, 0⟩ ⟨0, 1⟩] ∧
    ¬ distanceTo ⟨0, 0⟩ ⟨0, 0⟩ > 100 ∧
    (mouseup distanceTo true ⟨some ⟨0, 0⟩, some ⟨0, 0⟩⟩ []).2 = [] :=
  ⟨equator_degree_exceeds_threshold,
    ((c5_draw_threshold distanceTo ⟨0, 0⟩ ⟨0, 1⟩ []).1
      equator_degree_exceeds_threshold).1,
    zero_drag_below_threshold,
    (c5_draw_threshold distanceTo ⟨0, 0⟩ ⟨0, 0⟩ []).2 zero_drag_below_threshold⟩

end TripGenie
